import Mathlib

/-
Verification of the mcp-over-socks bridge core (Go) against its
natural-language specification, via a shallow embedding in Lean 4.

Conventions:
* A Go byte/character sequence (string, []byte) is modelled as `List Char`
  (abbrev `Bytes`); Go string concatenation is `++`.
* External library calls (net.SplitHostPort, net.ParseIP, net.LookupHost,
  encoding/json.Valid, the HTTP round trip) are modelled as oracle
  parameters or as outcome data types: the claims quantify over their
  results, never over their internals.
* Goroutine/channel plumbing is flattened to sequential state passing;
  where the Go code would block forever on an empty channel this is
  modelled as the pump stopping (field `stalled`).
-/

namespace MCPOverSocks

/-- Bytes models a Go string / byte slice as a list of characters. -/
abbrev Bytes := List Char

/- ------------------------------------------------------------------
SSE incremental parser: internal/transport/sse.go, SSEClient.readEvents
------------------------------------------------------------------- -/

/-- SSEEvent mirrors the Go struct SSEEvent (Event, Data, ID fields). -/
structure SSEEvent where
  event : Bytes
  data : Bytes
  id : Bytes
deriving DecidableEq, Repr

/-- emptyEvent is the Go zero value SSEEvent{}. -/
def emptyEvent : SSEEvent := ⟨[], [], []⟩

/-- trimOneSpace models strings.TrimPrefix(s, " "): removes one leading
space when present, otherwise returns the input unchanged. -/
def trimOneSpace : Bytes → Bytes
  | ' ' :: rest => rest
  | l => l

/-- joinNL models strings.Join(xs, "\n"). -/
def joinNL : List Bytes → Bytes
  | [] => []
  | [d] => d
  | d :: rest => d ++ '\n' :: joinNL rest

/-- readEventsLoop is the loop body of SSEClient.readEvents: `ev` holds the
pending Event/ID fields (Go variable `event`), `dataLines` the accumulated
data values (Go variable `dataLines`), and the third argument the remaining
scanner lines. An empty line emits one event iff data was accumulated and
then resets both; `data:` / `event:` / `id:` lines update state after
dropping the field name and one leading space; all other lines (comments,
`retry:`, unknown fields) are ignored. -/
def readEventsLoop (ev : SSEEvent) (dataLines : List Bytes) :
    List Bytes → List SSEEvent
  | [] => []
  | line :: rest =>
    if line = [] then
      if dataLines = [] then
        readEventsLoop ev dataLines rest
      else
        { ev with data := joinNL dataLines } :: readEventsLoop emptyEvent [] rest
    else if ("data:".toList).isPrefixOf line then
      readEventsLoop ev (dataLines ++ [trimOneSpace (line.drop 5)]) rest
    else if ("event:".toList).isPrefixOf line then
      readEventsLoop { ev with event := trimOneSpace (line.drop 6) } dataLines rest
    else if ("id:".toList).isPrefixOf line then
      readEventsLoop { ev with id := trimOneSpace (line.drop 3) } dataLines rest
    else
      readEventsLoop ev dataLines rest

/-- readEvents runs the parser from the Go initial state (zero event,
nil dataLines) over the full list of input lines. -/
def readEvents (lines : List Bytes) : List SSEEvent :=
  readEventsLoop emptyEvent [] lines

example : readEvents ["data: hello".toList, "".toList] =
    [⟨[], "hello".toList, []⟩] := by decide

example : readEvents ["data: a".toList, "data: b".toList, "".toList] =
    [⟨[], ('a' :: '\n' :: ['b']), []⟩] := by decide

/- ------------------------------------------------------------------
Inbound pump: internal/bridge/bridge.go, Bridge.readStdin and
Bridge.sendErrorResponse
------------------------------------------------------------------- -/

/-- hexDigit gives Go's lowercase hex digit for n < 16 (encoding/json). -/
def hexDigit (n : Nat) : Char :=
  if n < 10 then Char.ofNat ('0'.toNat + n) else Char.ofNat ('a'.toNat + n - 10)

/-- jsonEscapeChar models how encoding/json.Marshal escapes one character
of a Go string (default HTML-escaping encoder). -/
def jsonEscapeChar (c : Char) : Bytes :=
  if c = '"' then ['\\', '"']
  else if c = '\\' then ['\\', '\\']
  else if c = '\n' then ['\\', 'n']
  else if c = '\r' then ['\\', 'r']
  else if c = '\t' then ['\\', 't']
  else if c = '<' then "\\u003c".toList
  else if c = '>' then "\\u003e".toList
  else if c = '&' then "\\u0026".toList
  else if c.toNat < 32 then
    "\\u00".toList ++ [hexDigit (c.toNat / 16), hexDigit (c.toNat % 16)]
  else [c]

/-- jsonQuote models encoding/json.Marshal applied to a Go string value. -/
def jsonQuote (s : Bytes) : Bytes :=
  '"' :: (s.flatMap jsonEscapeChar) ++ ['"']

/-- SendRes is the outcome of one transport Send call as the pump sees it:
success (with, for the request/response transport, the validated response
body that Send pushed onto the events channel), or an error value. -/
inductive SendRes where
  | ok (respBody : Bytes)
  | err (msg : Bytes)
deriving DecidableEq, Repr

/-- SendModel packages the external collaborators of Bridge.readStdin:
`jsonValid` models encoding/json.Valid; `send` the transport's Send
outcome per payload; `idJSON` the best-effort id extraction of
Bridge.sendErrorResponse (json.Unmarshal into a struct with an `id`
field followed by json.Marshal of that field: the JSON text of the id,
`"null".toList` when absent or not extractable). -/
structure SendModel where
  jsonValid : Bytes → Bool
  send : Bytes → SendRes
  idJSON : Bytes → Bytes

/-- sendErrorResponse models Bridge.sendErrorResponse: the synthetic
JSON-RPC error line written to stdout after a failed Send.
json.Marshal of a Go map emits keys sorted: error, id, jsonrpc
(inner map: code, message). -/
def sendErrorResponse (M : SendModel) (request errMsg : Bytes) : Bytes :=
  "\x7b\"error\":\x7b\"code\":-32000,\"message\":".toList ++ jsonQuote errMsg
    ++ "\x7d,\"id\":".toList ++ M.idJSON request
    ++ ",\"jsonrpc\":\"2.0\"\x7d".toList

/-- TKind distinguishes the two dynamic types Bridge.readStdin branches
on: a generic (SSE) transport versus *transport.StreamableHTTPClient. -/
inductive TKind where
  | sse
  | streamable
deriving DecidableEq, Repr

/-- PumpOut collects what one run of Bridge.readStdin did: `sent` the
payloads passed to transport.Send in order, `out` the lines written to
stdout in order, `stalled` whether the pump blocked forever on the
inline-response channel read (streamable transport, failed Send: the
events channel is only fed by a successful Send, so the select at
bridge.go:178 never fires without cancellation). -/
structure PumpOut where
  sent : List Bytes
  out : List Bytes
  stalled : Bool
deriving DecidableEq, Repr

/-- readStdinModel is Bridge.readStdin over an already-scanned list of
input lines (bufio.Scanner strips the newlines; context cancellation is
not modelled, i.e. the run is uncancelled). Empty lines are skipped;
lines failing json.Valid are logged and skipped; valid lines are passed
to Send unchanged; a Send failure writes one synthetic error response;
for the StreamableHTTPClient the pump then reads the inline response
from the events channel and writes its Data when non-empty — after a
failed Send that read blocks (stalled). -/
def readStdinModel (M : SendModel) (k : TKind) : List Bytes → PumpOut
  | [] => ⟨[], [], false⟩
  | line :: rest =>
    if line = [] then readStdinModel M k rest
    else if ¬ M.jsonValid line then readStdinModel M k rest
    else
      match M.send line, k with
      | .ok _, .sse =>
        let c := readStdinModel M k rest
        ⟨line :: c.sent, c.out, c.stalled⟩
      | .ok body, .streamable =>
        let c := readStdinModel M k rest
        ⟨line :: c.sent, (if body = [] then c.out else body :: c.out), c.stalled⟩
      | .err e, .sse =>
        let c := readStdinModel M k rest
        ⟨line :: c.sent, sendErrorResponse M line e :: c.out, c.stalled⟩
      | .err e, .streamable =>
        ⟨[line], [sendErrorResponse M line e], true⟩

/- ------------------------------------------------------------------
SOCKS dialer: internal/transport/socks.go (SDK generation),
SOCKSDialer.Dial / DialContext / resolveLocally /
resolveLocallyWithContext
------------------------------------------------------------------- -/

/-- NetEnv packages the Go net package calls the dialer makes:
`split` models net.SplitHostPort (none on parse error), `isIP` models
net.ParseIP(host) != nil, `lookupHost` models net.LookupHost /
net.Resolver.LookupHost (error text, or the resolved address list). -/
structure NetEnv where
  split : Bytes → Option (Bytes × Bytes)
  isIP : Bytes → Bool
  lookupHost : Bytes → Except Bytes (List Bytes)

/-- SOCKSErrM mirrors the Go SOCKSError struct (Message, wrapped Err). -/
structure SOCKSErrM where
  message : Bytes
  errData : Option Bytes
deriving DecidableEq, Repr

/-- resolveFailMsg is the Message built at socks.go when LookupHost
returns an error: "Failed to resolve hostname '<host>' locally". -/
def resolveFailMsg (host : Bytes) : Bytes :=
  "Failed to resolve hostname \x27".toList ++ host ++ "\x27 locally".toList

/-- noIPMsg is the Message built when LookupHost returns no addresses:
"No IP addresses found for hostname '<host>'". -/
def noIPMsg (host : Bytes) : Bytes :=
  "No IP addresses found for hostname \x27".toList ++ host ++ "\x27".toList

/-- joinHostPort models net.JoinHostPort: brackets the host when it
contains a colon, then appends ":port". -/
def joinHostPort (host port : Bytes) : Bytes :=
  if host.contains ':' then
    '[' :: host ++ ']' :: ':' :: port
  else
    host ++ ':' :: port

/-- ResolveOut is the outcome of resolveLocally plus an instrumentation
counter: how many local resolver (LookupHost) calls were made. -/
structure ResolveOut where
  result : Except SOCKSErrM Bytes
  lookups : Nat
deriving Repr

/-- resolveLocally models SOCKSDialer.resolveLocally (and its context
variant, which differs only in plumbing): unsplittable addresses pass
through unresolved; a literal-IP host passes through; otherwise one
LookupHost call is made and the first address is substituted for the
host, a resolver error or empty result becoming a SOCKSError that names
the original hostname. -/
def resolveLocally (env : NetEnv) (addr : Bytes) : ResolveOut :=
  match env.split addr with
  | none => ⟨.ok addr, 0⟩
  | some (host, port) =>
    if env.isIP host then ⟨.ok addr, 0⟩
    else
      match env.lookupHost host with
      | .error e => ⟨.error ⟨resolveFailMsg host, some e⟩, 1⟩
      | .ok [] => ⟨.error ⟨noIPMsg host, none⟩, 1⟩
      | .ok (ip :: _) => ⟨.ok (joinHostPort ip port), 1⟩

/-- DialOut records one SOCKSDialer.Dial/DialContext call: the address
handed to the underlying SOCKS5 proxy dialer (none when no proxy dial
was attempted), the error result, and the local resolver call count.
The proxy dial itself is an external collaborator and is taken to
succeed; the claims concern only resolution and the dialed address. -/
structure DialOut where
  proxyAddr : Option Bytes
  result : Except SOCKSErrM Unit
  lookups : Nat
deriving Repr

/-- dialModel models SOCKSDialer.Dial / DialContext: under remote DNS
(socks5h://) the address goes to the proxy unchanged with no local
resolution; otherwise resolveLocally runs first and its error aborts
the dial, its success substitutes the resolved address. -/
def dialModel (env : NetEnv) (remoteDNS : Bool) (addr : Bytes) : DialOut :=
  if remoteDNS then ⟨some addr, .ok (), 0⟩
  else
    let ro := resolveLocally env addr
    match ro.result with
    | .error e => ⟨none, .error e, ro.lookups⟩
    | .ok a => ⟨some a, .ok (), ro.lookups⟩

/- ------------------------------------------------------------------
Transport detector: internal/transport/detector.go,
DetectTransportType and CreateTransport
------------------------------------------------------------------- -/

/-- TransportType mirrors the Go TransportType constants. -/
inductive TransportType where
  | sse
  | streamableHTTP
  | auto
deriving DecidableEq, Repr

/-- ProbeOutcome is the result of the detector's single HTTP GET probe:
request creation or round trip failed with an error, or a response
arrived with the given Content-Type header value. -/
inductive ProbeOutcome where
  | failed (e : Bytes)
  | resp (contentType : Bytes)
deriving DecidableEq, Repr

/-- eventStreamCT is the streaming content type "text/event-stream". -/
def eventStreamCT : Bytes := "text/event-stream".toList

/-- jsonCT is the JSON content type "application/json". -/
def jsonCT : Bytes := "application/json".toList

/-- DetectTransportType models the Go function of the same name: a
failed probe returns (TransportTypeAuto, err); otherwise the
Content-Type header is classified by prefix — text/event-stream → SSE,
application/json → StreamableHTTP, anything else → SSE (default). -/
def DetectTransportType : ProbeOutcome → TransportType × Option Bytes
  | .failed e => (.auto, some e)
  | .resp ct =>
    if eventStreamCT.isPrefixOf ct then (.sse, none)
    else if jsonCT.isPrefixOf ct then (.streamableHTTP, none)
    else (.sse, none)

/-- TransportVariant names which concrete client CreateTransport
constructs. -/
inductive TransportVariant where
  | sseClient
  | streamableHTTPClient
deriving DecidableEq, Repr

/-- CreateTransport models the Go CreateTransport switch: StreamableHTTP
builds a StreamableHTTPClient; SSE and the default case (including
Auto, via fallthrough) build an SSEClient. -/
def CreateTransport : TransportType → TransportVariant
  | .streamableHTTP => .streamableHTTPClient
  | .sse => .sseClient
  | .auto => .sseClient

/- ------------------------------------------------------------------
SSE connect: internal/transport/sse.go, SSEClient.Connect
------------------------------------------------------------------- -/

/-- GetOutcome is the result of the Connect GET as SSEClient.Connect
sees it: request creation failed, the HTTP round trip failed with an
error (its Error() text), or a response arrived with the given status
code and Content-Type header value. -/
inductive GetOutcome where
  | reqFailed (e : Bytes)
  | doFailed (e : Bytes)
  | resp (status : Nat) (contentType : Bytes)
deriving DecidableEq, Repr

/-- SSEErrM mirrors the Go SSEError struct (Message, wrapped Err). -/
structure SSEErrM where
  message : Bytes
  errData : Option Bytes
deriving DecidableEq, Repr

/-- containsSub models strings.Contains: needle occurs as a contiguous
sublist of hay. -/
def containsSub (needle hay : Bytes) : Bool :=
  match hay with
  | [] => needle.isEmpty
  | _ :: t => needle.isPrefixOf hay || containsSub needle t

/-- connectFailMsg is the Message SSEClient.Connect picks for a failed
httpClient.Do, by pattern-matching the error text. -/
def connectFailMsg (serverURL e : Bytes) : Bytes :=
  if containsSub ("connection refused".toList) e then
    "Connection refused to ".toList ++ serverURL ++ " - is the server running?".toList
  else if containsSub ("no such host".toList) e then
    "Cannot resolve host for ".toList ++ serverURL ++ " - check the URL".toList
  else if containsSub ("timeout".toList) e || containsSub ("deadline exceeded".toList) e then
    "Connection timeout to ".toList ++ serverURL ++ " - check network connectivity".toList
  else
    "Failed to connect to SSE server at ".toList ++ serverURL

/-- statusMsg is the Message for a non-200 probe response:
"SSE server returned status <n> (expected 200)". -/
def statusMsg (status : Nat) : Bytes :=
  "SSE server returned status ".toList ++ (Nat.repr status).toList
    ++ " (expected 200)".toList

/-- contentTypeMsg is the Message for a 200 response whose Content-Type
does not start with text/event-stream. -/
def contentTypeMsg (ct : Bytes) : Bytes :=
  "Unexpected content type \x27".toList ++ ct
    ++ "\x27 - expected \x27text/event-stream\x27. Is this an SSE endpoint?".toList

/-- ConnectOut records the result of SSEClient.Connect together with
whether the background readEvents goroutine was started. -/
structure ConnectOut where
  result : Except SSEErrM Unit
  readerStarted : Bool
deriving Repr

/-- sseConnect models SSEClient.Connect: any GET failure is a connect
error; a status other than 200 is a connect error carrying the status;
a Content-Type not starting with text/event-stream is a connect error
carrying the content type; only on success is conn stored and the
background reader goroutine started. -/
def sseConnect (serverURL : Bytes) : GetOutcome → ConnectOut
  | .reqFailed e => ⟨.error ⟨"Failed to create request".toList, some e⟩, false⟩
  | .doFailed e => ⟨.error ⟨connectFailMsg serverURL e, some e⟩, false⟩
  | .resp status ct =>
    if status ≠ 200 then ⟨.error ⟨statusMsg status, none⟩, false⟩
    else if ¬ eventStreamCT.isPrefixOf ct then
      ⟨.error ⟨contentTypeMsg ct, none⟩, false⟩
    else ⟨.ok (), true⟩

/- ------------------------------------------------------------------
Close idempotence: internal/transport/sse.go SSEClient.Close and
internal/transport/streamable_http.go StreamableHTTPClient.Close
------------------------------------------------------------------- -/

/-- SSECloseState abstracts the SSEClient fields Close reads under its
mutex: the closed flag and whether conn is non-nil. -/
structure SSECloseState where
  closed : Bool
  hasConn : Bool
deriving DecidableEq, Repr

/-- CloseCall records one Close call: the state afterwards, whether the
underlying resource was closed by this call, and the returned error
(none = nil). -/
structure CloseCall where
  state : SSECloseState
  didCloseRes : Bool
  ret : Option Bytes
deriving DecidableEq, Repr

/-- sseClose models SSEClient.Close: an already-closed client returns
nil untouched; otherwise the closed flag is set and, when conn is
non-nil, conn.Close() runs (its return value `connCloseRet`) — exactly
once, since closed now blocks every later call. -/
def sseClose (connCloseRet : Option Bytes) (s : SSECloseState) : CloseCall :=
  if s.closed then ⟨s, false, none⟩
  else if s.hasConn then ⟨⟨true, s.hasConn⟩, true, connCloseRet⟩
  else ⟨⟨true, s.hasConn⟩, false, none⟩

/-- StreamableCloseState abstracts the StreamableHTTPClient closed flag. -/
structure StreamableCloseState where
  closed : Bool
deriving DecidableEq, Repr

/-- SCloseCall records one StreamableHTTPClient.Close call: the state
afterwards, whether close(eventsCh) ran, and the returned error. -/
structure SCloseCall where
  state : StreamableCloseState
  didCloseCh : Bool
  ret : Option Bytes
deriving DecidableEq, Repr

/-- streamableClose models StreamableHTTPClient.Close: an
already-closed client returns nil untouched; otherwise the flag is set,
the delivery channel is closed, and nil is returned. -/
def streamableClose (s : StreamableCloseState) : SCloseCall :=
  if s.closed then ⟨s, false, none⟩
  else ⟨⟨true⟩, true, none⟩

/-- sseCloseCount iterates sseClose n times from state s and counts how
many of the calls closed the underlying connection. -/
def sseCloseCount (connCloseRet : Option Bytes) (s : SSECloseState) : Nat → Nat
  | 0 => 0
  | n + 1 =>
    let c := sseClose connCloseRet s
    (if c.didCloseRes then 1 else 0) + sseCloseCount connCloseRet c.state n

/-- streamableCloseCount iterates streamableClose n times from state s
and counts how many of the calls closed the delivery channel. -/
def streamableCloseCount (s : StreamableCloseState) : Nat → Nat
  | 0 => 0
  | n + 1 =>
    let c := streamableClose s
    (if c.didCloseCh then 1 else 0) + streamableCloseCount c.state n

/- ------------------------------------------------------------------
Concrete instances used by witnesses and counterexamples
------------------------------------------------------------------- -/

/-- SendRes.isOk is true exactly on successful Send outcomes. -/
def SendRes.isOk : SendRes → Bool
  | .ok _ => true
  | .err _ => false

/-- sampleModel is a concrete SendModel: the line "oops" is the only
invalid JSON, the line "a" is the only one whose Send fails. -/
def sampleModel : SendModel where
  jsonValid := fun l => l != "oops".toList
  send := fun l => if l = "a".toList then .err "boom".toList else .ok "ok".toList
  idJSON := fun _ => "1".toList

/-- noSplitEnv is a NetEnv whose SplitHostPort always fails to parse. -/
def noSplitEnv : NetEnv where
  split := fun _ => none
  isIP := fun _ => false
  lookupHost := fun _ => .ok []

/-- sampleEnv is a NetEnv with one hostname target (example.com:80,
resolving to 5.6.7.8), one literal-IP target (1.2.3.4:80), and a
resolver that fails on every other host. -/
def sampleEnv : NetEnv where
  split := fun a =>
    if a = "example.com:80".toList then some ("example.com".toList, "80".toList)
    else if a = "1.2.3.4:80".toList then some ("1.2.3.4".toList, "80".toList)
    else none
  isIP := fun h => h = "1.2.3.4".toList
  lookupHost := fun h =>
    if h = "example.com".toList then .ok ["5.6.7.8".toList] else .error "lookup failed".toList

/- ------------------------------------------------------------------
Claim theorems
------------------------------------------------------------------- -/

/-- C1: for every non-empty input line that is valid JSON, while the
transport accepts every such line, the inbound pump passes exactly the
non-empty valid lines to the transport's Send, each byte-identical to
the input line — the sent list is literally the filtered input list,
with nothing added, removed, or changed. -/
theorem C1_relay_byte_identical (M : SendModel) (k : TKind) (lines : List Bytes)
    (hacc : ∀ l ∈ lines, l ≠ [] → M.jsonValid l = true → (M.send l).isOk = true) :
    (readStdinModel M k lines).sent
      = lines.filter (fun l => !l.isEmpty && M.jsonValid l) := by
  induction lines with
  | nil => cases k <;> rfl
  | cons line rest ih =>
    have ih' := ih (fun l hl => hacc l (List.mem_cons_of_mem _ hl))
    by_cases hne : line = []
    · subst hne
      simpa [readStdinModel] using ih'
    · by_cases hv : M.jsonValid line = true
      · have hok := hacc line (List.mem_cons_self _ _) hne hv
        cases hsend : M.send line with
        | ok body =>
          cases k with
          | sse => simp [readStdinModel, hne, hv, hsend, ih']
          | streamable => simp [readStdinModel, hne, hv, hsend, ih']
        | err e =>
          rw [hsend] at hok
          simp [SendRes.isOk] at hok
      · have hv' : M.jsonValid line = false := by
          cases h : M.jsonValid line with
          | true => exact absurd h hv
          | false => rfl
        simp [readStdinModel, hne, hv', ih']

/-- C1 witness: the pump over ["b", "", "c"] with the sample model sends
exactly the filtered lines. -/
theorem C1_witness :
    (readStdinModel sampleModel .sse ["b".toList, [], "c".toList]).sent
      = ["b".toList, [], "c".toList].filter
          (fun l => !l.isEmpty && sampleModel.jsonValid l) :=
  C1_relay_byte_identical sampleModel .sse _ (by decide)

/-- C2 counterexample: with the streamable (request/response) transport,
a valid line ("a") whose Send fails gets its one synthetic error
response, but the pump then blocks on the inline-response channel read:
the subsequent valid line "b" is never passed to Send, so the claim's
"continues processing subsequent lines" is false as stated. -/
theorem C2_counterexample :
    (readStdinModel sampleModel .streamable ["a".toList, "b".toList]).out
      = [sendErrorResponse sampleModel "a".toList "boom".toList]
    ∧ "b".toList ∉ (readStdinModel sampleModel .streamable ["a".toList, "b".toList]).sent
    ∧ (readStdinModel sampleModel .streamable ["a".toList, "b".toList]).stalled = true := by
  decide

/-- C2 (amended): a valid line whose Send fails always produces exactly
one synthetic JSON-RPC error response on stdout, carrying the id
extracted from the original message (null when not extractable, via
sendErrorResponse). With the streaming (SSE) transport the pump then
continues with the remaining lines; with the request/response
(streamable) transport the pump blocks on the inline-response read and
processes no further lines (until cancellation), though the process
does not exit. -/
theorem C2_send_failure_response (M : SendModel) (line e : Bytes) (rest : List Bytes)
    (hne : line ≠ []) (hv : M.jsonValid line = true) (hf : M.send line = .err e) :
    readStdinModel M .sse (line :: rest)
        = ⟨line :: (readStdinModel M .sse rest).sent,
           sendErrorResponse M line e :: (readStdinModel M .sse rest).out,
           (readStdinModel M .sse rest).stalled⟩
    ∧ readStdinModel M .streamable (line :: rest)
        = ⟨[line], [sendErrorResponse M line e], true⟩ := by
  constructor <;> simp [readStdinModel, hne, hv, hf]

/-- C2 witness: the failing line "a" alone yields exactly its synthetic
error response and nothing else. -/
theorem C2_witness :
    readStdinModel sampleModel .sse ["a".toList]
        = ⟨["a".toList], [sendErrorResponse sampleModel "a".toList "boom".toList], false⟩
    ∧ readStdinModel sampleModel .streamable ["a".toList]
        = ⟨["a".toList], [sendErrorResponse sampleModel "a".toList "boom".toList], true⟩ := by
  have h := C2_send_failure_response sampleModel "a".toList "boom".toList []
    (by decide) (by decide) (by decide)
  exact ⟨by rw [h.1]; rfl, h.2⟩

/-- C7: a non-empty input line that is not valid JSON is skipped
entirely: the pump run over it followed by any remaining lines equals
the run over the remaining lines alone — no Send call, no stdout write,
and processing proceeds to the next line. -/
theorem C7_malformed_line_skipped (M : SendModel) (k : TKind) (line : Bytes)
    (rest : List Bytes) (hne : line ≠ []) (hbad : M.jsonValid line = false) :
    readStdinModel M k (line :: rest) = readStdinModel M k rest := by
  simp [readStdinModel, hne, hbad]

/-- C7 witness: the invalid line "oops" is skipped and the run continues
with the next line. -/
theorem C7_witness :
    readStdinModel sampleModel .sse ["oops".toList, "b".toList]
      = readStdinModel sampleModel .sse ["b".toList] :=
  C7_malformed_line_skipped sampleModel .sse "oops".toList ["b".toList]
    (by decide) (by decide)

/-- C3: the streaming parser accumulates data: line values (field name
and one leading space stripped) and, on an empty line after at least one
data: line, emits exactly one event whose data is the accumulated values
joined by newline, then resets the accumulation; in particular
"data: hello\n\n" yields one event with data "hello",
"data: a\ndata: b\n\n" yields one event with data "a\nb", and two
consecutive blank-line-terminated blocks yield two events in order. -/
theorem C3_sse_event_assembly :
    (∀ (ev : SSEEvent) (ds : List Bytes) (rest : List Bytes), ds ≠ [] →
        readEventsLoop ev ds ([] :: rest)
          = { ev with data := joinNL ds } :: readEventsLoop emptyEvent [] rest)
    ∧ (∀ (ev : SSEEvent) (ds : List Bytes) (rest : List Bytes) (line : Bytes),
        ("data:".toList).isPrefixOf line = true →
        readEventsLoop ev ds (line :: rest)
          = readEventsLoop ev (ds ++ [trimOneSpace (line.drop 5)]) rest)
    ∧ readEvents ["data: hello".toList, []] = [⟨[], "hello".toList, []⟩]
    ∧ readEvents ["data: a".toList, "data: b".toList, []]
        = [⟨[], "a\nb".toList, []⟩]
    ∧ readEvents ["data: x".toList, [], "data: y".toList, []]
        = [⟨[], "x".toList, []⟩, ⟨[], "y".toList, []⟩] := by
  refine ⟨?_, ?_, by decide, by decide, by decide⟩
  · intro ev ds rest hds
    simp [readEventsLoop, hds]
  · intro ev ds rest line hpre
    have hne : line ≠ [] := by
      intro h
      subst h
      exact absurd hpre (by decide)
    have hpre' : "data:".toList <+: line := by
      simpa using hpre
    simp [readEventsLoop, hne, hpre']
    intro hcon
    exact absurd hpre' hcon

/-- C3 witness: one emission step and one accumulation step at concrete
inputs. -/
theorem C3_witness :
    readEventsLoop emptyEvent ["h".toList] ([] :: [])
        = [⟨[], "h".toList, []⟩]
    ∧ readEventsLoop emptyEvent [] ["data: z".toList]
        = readEventsLoop emptyEvent ["z".toList] [] := by
  have h := C3_sse_event_assembly
  constructor
  · rw [h.1 emptyEvent ["h".toList] [] (by decide)]
    rfl
  · rw [h.2.1 emptyEvent [] [] "data: z".toList (by decide)]
    rfl

/-- C10: an event block terminated by a blank line but containing no
data: lines emits no event and leaves the pending event:/id: field
values untouched, so they attach to the next emitted event — reset
happens only when an event is emitted. -/
theorem C10_dataless_block_keeps_fields :
    (∀ (ev : SSEEvent) (rest : List Bytes),
        readEventsLoop ev [] ([] :: rest) = readEventsLoop ev [] rest)
    ∧ readEvents ["event: foo".toList, "id: 7".toList, [], "data: x".toList, []]
        = [⟨"foo".toList, "x".toList, "7".toList⟩] := by
  refine ⟨?_, by decide⟩
  intro ev rest
  simp [readEventsLoop]

/-- C4: under remote resolution zero local resolver calls are made and
the address reaches the proxy unchanged; under local resolution a
literal-IP host is dialed with zero resolver calls, while a hostname
triggers exactly one resolver call, a successful lookup substituting
the first resolved address for the host, and a resolver error or empty
result aborting the dial with an error whose message carries the
original hostname (no proxy dial attempted). -/
theorem C4_resolution_policies (env : NetEnv) (addr host port : Bytes) :
    dialModel env true addr = ⟨some addr, .ok (), 0⟩
    ∧ (env.split addr = some (host, port) → env.isIP host = true →
        dialModel env false addr = ⟨some addr, .ok (), 0⟩)
    ∧ (env.split addr = some (host, port) → env.isIP host = false →
        (dialModel env false addr).lookups = 1
        ∧ (∀ (ip : Bytes) (ips : List Bytes), env.lookupHost host = .ok (ip :: ips) →
            dialModel env false addr = ⟨some (joinHostPort ip port), .ok (), 1⟩)
        ∧ (∀ e : Bytes, env.lookupHost host = .error e →
            dialModel env false addr = ⟨none, .error ⟨resolveFailMsg host, some e⟩, 1⟩
            ∧ ∃ pre suf, resolveFailMsg host = pre ++ host ++ suf)
        ∧ (env.lookupHost host = .ok [] →
            dialModel env false addr = ⟨none, .error ⟨noIPMsg host, none⟩, 1⟩
            ∧ ∃ pre suf, noIPMsg host = pre ++ host ++ suf)) := by
  refine ⟨rfl, ?_, ?_⟩
  · intro hs hip
    simp [dialModel, resolveLocally, hs, hip]
  · intro hs hip
    refine ⟨?_, ?_, ?_, ?_⟩
    · cases hl : env.lookupHost host with
      | error e => simp [dialModel, resolveLocally, hs, hip, hl]
      | ok ips =>
        cases ips with
        | nil => simp [dialModel, resolveLocally, hs, hip, hl]
        | cons ip rest => simp [dialModel, resolveLocally, hs, hip, hl]
    · intro ip ips hl
      simp [dialModel, resolveLocally, hs, hip, hl]
    · intro e hl
      refine ⟨by simp [dialModel, resolveLocally, hs, hip, hl], ?_⟩
      exact ⟨"Failed to resolve hostname \x27".toList, "\x27 locally".toList,
        by simp [resolveFailMsg]⟩
    · intro hl
      refine ⟨by simp [dialModel, resolveLocally, hs, hip, hl], ?_⟩
      exact ⟨"No IP addresses found for hostname \x27".toList, "\x27".toList,
        by simp [noIPMsg]⟩

/-- C4 witness: with the sample environment, remote resolution passes a
hostname target through, a literal-IP target dials unresolved with no
lookup, and a hostname target dials the first resolved address with
exactly one lookup. -/
theorem C4_witness :
    dialModel sampleEnv true "example.com:80".toList
        = ⟨some "example.com:80".toList, .ok (), 0⟩
    ∧ dialModel sampleEnv false "1.2.3.4:80".toList
        = ⟨some "1.2.3.4:80".toList, .ok (), 0⟩
    ∧ dialModel sampleEnv false "example.com:80".toList
        = ⟨some (joinHostPort "5.6.7.8".toList "80".toList), .ok (), 1⟩ := by
  refine ⟨(C4_resolution_policies sampleEnv "example.com:80".toList [] []).1, ?_, ?_⟩
  · exact (C4_resolution_policies sampleEnv "1.2.3.4:80".toList "1.2.3.4".toList
      "80".toList).2.1 (by decide) (by decide)
  · exact ((C4_resolution_policies sampleEnv "example.com:80".toList "example.com".toList
      "80".toList).2.2 (by decide) (by decide)).2.1 "5.6.7.8".toList [] (by rfl)

/-- C9: an address that SplitHostPort cannot parse passes through the
local-resolution path unchanged — no resolver call, no error, and the
original address is handed to the SOCKS5 proxy dial. -/
theorem C9_unsplittable_passthrough (env : NetEnv) (addr : Bytes)
    (h : env.split addr = none) :
    resolveLocally env addr = ⟨.ok addr, 0⟩
    ∧ dialModel env false addr = ⟨some addr, .ok (), 0⟩ := by
  constructor
  · simp [resolveLocally, h]
  · simp [dialModel, resolveLocally, h]

/-- C9 witness: a portless address under an environment whose
SplitHostPort always fails is passed through with zero lookups. -/
theorem C9_witness :
    resolveLocally noSplitEnv "badaddr".toList = ⟨.ok "badaddr".toList, 0⟩
    ∧ dialModel noSplitEnv false "badaddr".toList
        = ⟨some "badaddr".toList, .ok (), 0⟩ :=
  C9_unsplittable_passthrough noSplitEnv "badaddr".toList rfl

/-- C5 counterexample: on a failed probe DetectTransportType returns the
Auto marker together with the error — not the Streaming (SSE)
classification the claim states. -/
theorem C5_counterexample :
    DetectTransportType (.failed "probe failed".toList)
        = (.auto, some "probe failed".toList)
    ∧ TransportType.auto ≠ TransportType.sse := by
  decide

/-- C5 (amended): the detector classifies a text/event-stream
content type as SSE (Streaming), an application/json content type as
StreamableHTTP (Request/Response), and any other content type as SSE by
default; a failed probe returns the Auto marker with the error, and
CreateTransport maps Auto to the SSE (Streaming) client by default, so
the composed fallback classification is Streaming. -/
theorem C5_detector_classification (ct e : Bytes) :
    (eventStreamCT <+: ct → DetectTransportType (.resp ct) = (.sse, none))
    ∧ (¬ eventStreamCT <+: ct → jsonCT <+: ct →
        DetectTransportType (.resp ct) = (.streamableHTTP, none))
    ∧ (¬ eventStreamCT <+: ct → ¬ jsonCT <+: ct →
        DetectTransportType (.resp ct) = (.sse, none))
    ∧ DetectTransportType (.failed e) = (.auto, some e)
    ∧ CreateTransport .auto = .sseClient := by
  refine ⟨?_, ?_, ?_, rfl, rfl⟩
  · intro h
    simp [DetectTransportType, h]
  · intro h1 h2
    simp [DetectTransportType, h1, h2]
  · intro h1 h2
    simp [DetectTransportType, h1, h2]

/-- C5 witness: a JSON content type is classified as the
Request/Response transport. -/
theorem C5_witness :
    DetectTransportType (.resp "application/json".toList)
        = (.streamableHTTP, none) :=
  (C5_detector_classification "application/json".toList []).2.1
    (by decide) (by decide)

/-- C6: SSEClient.Connect succeeds exactly when the GET completed with
status 200 and a text/event-stream content type; a bad status yields an
error whose message carries that status, a bad content type an error
whose message carries that content type, and the background reader is
started exactly on success. -/
theorem C6_connect_error_iff (url : Bytes) (g : GetOutcome) :
    ((sseConnect url g).result = .ok ()
        ↔ ∃ st ct, g = .resp st ct ∧ st = 200 ∧ eventStreamCT <+: ct)
    ∧ ((sseConnect url g).readerStarted = true ↔ (sseConnect url g).result = .ok ())
    ∧ (∀ (st : Nat) (ct : Bytes), g = .resp st ct → st ≠ 200 →
        sseConnect url g = ⟨.error ⟨statusMsg st, none⟩, false⟩
        ∧ ∃ pre suf, statusMsg st = pre ++ (Nat.repr st).toList ++ suf)
    ∧ (∀ (st : Nat) (ct : Bytes), g = .resp st ct → st = 200 →
        ¬ eventStreamCT <+: ct →
        sseConnect url g = ⟨.error ⟨contentTypeMsg ct, none⟩, false⟩
        ∧ ∃ pre suf, contentTypeMsg ct = pre ++ ct ++ suf) := by
  refine ⟨?_, ?_, ?_, ?_⟩
  · cases g with
    | reqFailed e => simp [sseConnect]
    | doFailed e => simp [sseConnect]
    | resp st ct =>
      by_cases hst : st = 200
      · subst hst
        by_cases hct : eventStreamCT <+: ct
        · simp only [sseConnect]
          simp [hct]
          exact ⟨200, ct, ⟨rfl, rfl⟩, rfl, hct⟩
        · simp [sseConnect, hct]
      · simp [sseConnect, hst]
  · cases g with
    | reqFailed e => simp [sseConnect]
    | doFailed e => simp [sseConnect]
    | resp st ct =>
      by_cases hst : st = 200
      · subst hst
        by_cases hct : eventStreamCT <+: ct
        · simp [sseConnect, hct]
        · simp [sseConnect, hct]
      · simp [sseConnect, hst]
  · intro st ct hg hst
    subst hg
    refine ⟨by simp [sseConnect, hst], ?_⟩
    exact ⟨"SSE server returned status ".toList, " (expected 200)".toList,
      by simp [statusMsg]⟩
  · intro st ct hg hst hct
    subst hg
    subst hst
    refine ⟨by simp [sseConnect, hct], ?_⟩
    exact ⟨"Unexpected content type \x27".toList,
      "\x27 - expected \x27text/event-stream\x27. Is this an SSE endpoint?".toList,
      by simp [contentTypeMsg]⟩

/-- C6 witness: a 404 probe response is a connect error carrying the
status and the reader is not started; a correct response starts it. -/
theorem C6_witness :
    (sseConnect "u".toList (.resp 404 "text/html".toList)
        = ⟨.error ⟨statusMsg 404, none⟩, false⟩
      ∧ ∃ pre suf, statusMsg 404 = pre ++ (Nat.repr 404).toList ++ suf)
    ∧ (sseConnect "u".toList (.resp 200 "text/event-stream".toList)).readerStarted
        = true := by
  constructor
  · exact (C6_connect_error_iff "u".toList (.resp 404 "text/html".toList)).2.2.1
      404 "text/html".toList rfl (by decide)
  · exact ((C6_connect_error_iff "u".toList
      (.resp 200 "text/event-stream".toList)).2.1).mpr (by rfl)

/-- Helper: once the SSE client is marked closed, no later Close call
closes anything. -/
theorem sseCloseCount_closed (r : Option Bytes) (b : Bool) (n : Nat) :
    sseCloseCount r ⟨true, b⟩ n = 0 := by
  induction n with
  | zero => rfl
  | succ n ih => simp [sseCloseCount, sseClose, ih]

/-- Helper: once the streamable client is marked closed, no later Close
call closes anything. -/
theorem streamableCloseCount_closed (n : Nat) :
    streamableCloseCount ⟨true⟩ n = 0 := by
  induction n with
  | zero => rfl
  | succ n ih => simp [streamableCloseCount, streamableClose, ih]

/-- C8: Close is idempotent for both transports: on an already-closed
client every call returns nil and closes nothing; starting from a fresh
connected client, any positive number of sequential Close calls closes
the underlying resource (the SSE connection, resp. the delivery
channel) exactly once, and never more than once over any sequence. -/
theorem C8_close_idempotent (r : Option Bytes) (s : SSECloseState)
    (t : StreamableCloseState) (n : Nat)
    (hs : s.closed = true) (ht : t.closed = true) :
    sseClose r s = ⟨s, false, none⟩
    ∧ streamableClose t = ⟨t, false, none⟩
    ∧ sseCloseCount r ⟨false, true⟩ (n + 1) = 1
    ∧ streamableCloseCount ⟨false⟩ (n + 1) = 1
    ∧ sseCloseCount r ⟨false, true⟩ n ≤ 1
    ∧ streamableCloseCount ⟨false⟩ n ≤ 1 := by
  refine ⟨?_, ?_, ?_, ?_, ?_, ?_⟩
  · simp [sseClose, hs]
  · simp [streamableClose, ht]
  · simp [sseCloseCount, sseClose, sseCloseCount_closed]
  · simp [streamableCloseCount, streamableClose, streamableCloseCount_closed]
  · cases n with
    | zero => simp [sseCloseCount]
    | succ m => simp [sseCloseCount, sseClose, sseCloseCount_closed]
  · cases n with
    | zero => simp [streamableCloseCount]
    | succ m => simp [streamableCloseCount, streamableClose, streamableCloseCount_closed]

/-- C8 witness: three Close calls on a fresh client close the resource
exactly once; a call on an already-closed client is a nil no-op. -/
theorem C8_witness :
    sseClose none ⟨true, true⟩ = ⟨⟨true, true⟩, false, none⟩
    ∧ streamableClose ⟨true⟩ = ⟨⟨true⟩, false, none⟩
    ∧ sseCloseCount none ⟨false, true⟩ 3 = 1
    ∧ streamableCloseCount ⟨false⟩ 3 = 1 := by
  have h := C8_close_idempotent none ⟨true, true⟩ ⟨true⟩ 2 rfl rfl
  exact ⟨h.1, h.2.1, h.2.2.1, h.2.2.2.1⟩

end MCPOverSocks
